import Mathlib

/-!
Verification development for the mssql-restore repository: a shallow embedding
of the restore-orchestration pipeline found in its two parallel
implementations — `src/tool/backup_processor.py` with `src/tool/monitor.py`
(the "Tool" definitions below) and
`src/ingestion_service/core/backup_handler.py` (the "Handler" definitions) —
together with theorems about their behavior.

External boundaries (filesystem, archive tool, SQL engine, clock) are
parameters of an environment record; every fallible Python call is modelled
with `Except`, and the observable side effects of a run are collected in an
event trace.
-/

namespace MssqlRestore

deriving instance DecidableEq for Except

/-! ## Python value helpers -/

/-- Python `str()` of a possibly-`None` string, as rendered when such a value
is interpolated into an f-string (`None` prints as `"None"`). -/
def pyStr : Option String → String
  | none => "None"
  | some s => s

/-- Python truthiness of a possibly-`None` string (`if not x:`): `None` and
the empty string are falsy. -/
def pyTruthy : Option String → Bool
  | none => false
  | some s => s != ""

/-- Characterwise lowercasing over the character list (Python str.lower;
structural model of String.toLower). -/
def pyLower (s : String) : String := ⟨s.data.map Char.toLower⟩

/-- Suffix test over the character lists (str.endswith / String.endsWith). -/
def strEndsWith (s post : String) : Bool := post.data.isSuffixOf s.data

/-- Accumulator loop for splitting on a separator character. -/
def splitOnCharAux (sep : Char) : List Char → List Char → List String
  | acc, [] => [String.mk acc.reverse]
  | acc, c :: cs =>
    if c = sep then String.mk acc.reverse :: splitOnCharAux sep [] cs
    else splitOnCharAux sep (c :: acc) cs

/-- Splitting on one separator character, structural model of String.splitOn
for the single-character separators this program uses. -/
def splitOnChar (sep : Char) (s : String) : List String := splitOnCharAux sep [] s.data

/-- Final component of a slash-separated path (`os.path.basename`). -/
def baseName (p : String) : String := (splitOnChar '/' p).getLastD ""

/-- Leading directory of a slash-separated path (`os.path.dirname`). -/
def dirName (p : String) : String :=
  String.intercalate "/" ((splitOnChar '/' p).dropLast)

/-- Two-argument `os.path.join` for the relative second arguments used here. -/
def joinPath (a b : String) : String := if a = "" then b else a ++ "/" ++ b

/-- Extension of the final path component, from its last dot, as
`os.path.splitext(...)[1]` computes for the names this program sees. -/
def extOf (p : String) : String :=
  let parts := splitOnChar '.' (baseName p)
  if parts.length ≤ 1 then "" else "." ++ parts.getLastD ""

/-- Final path component with its extension removed (`os.path.splitext` root
of the basename). -/
def stemOf (p : String) : String := (baseName p).dropRight (extOf p).length

/-! ## Data model -/

/-- One row of the engine-reported logical-file manifest
(`RESTORE FILELISTONLY`): the `LogicalName` and `Type` fields, each possibly
absent since the code reads them with `dict.get`. -/
structure FileManifestEntry where
  logicalName : Option String
  typ : Option String
deriving Repr, DecidableEq

/-- Python exceptions raised by the code, by kind; the message is kept where a
claim depends on it. -/
inductive Err where
  | osError
  | fileNotFoundError (msg : String)
  | valueError (msg : String)
  | timeoutError (msg : String)
  | connectionError (msg : String)
  | sqlError
  | extractionError
deriving Repr, DecidableEq

/-- Observable side effects of a run, recorded in order as a trace. -/
inductive Event where
  | sleep (seconds : Nat)
  | copyToShared (src dst : String)
  | connectAttempt
  | queryFileList (path : String)
  | execRestore (sql : String)
  | pollPhase (dbName : String)
  | pollQuery (dbName : String)
  | queryDbFiles (dbName : String)
  | archiveMove (src : String)
  | extractArchive (path : String)
  | restoreRun (path : String)
  | processDat (path : String)
deriving Repr, DecidableEq

/-- Recognizes the entry marker of the Tool dat-processing stage. -/
def Event.isProcessDat : Event → Bool
  | .processDat _ => true
  | _ => false

/-- Recognizes the entry marker of one Handler restore-backup invocation. -/
def Event.isRestoreRun : Event → Bool
  | .restoreRun _ => true
  | _ => false

/-- Recognizes the start of an online-polling phase. -/
def Event.isPollPhase : Event → Bool
  | .pollPhase _ => true
  | _ => false

/-- Recognizes a copy into the shared backup directory. -/
def Event.isCopy : Event → Bool
  | .copyToShared _ _ => true
  | _ => false

/-- Recognizes a database connection attempt. -/
def Event.isConnect : Event → Bool
  | .connectAttempt => true
  | _ => false

/-- Recognizes the issuing of a restore command against the engine. -/
def Event.isExecRestore : Event → Bool
  | .execRestore _ => true
  | _ => false

/-! ## Retry decorator (`backup_handler.retry`, lines 28-57) -/

/-- Inner loop of the retry decorator: `attempt` is the 1-based attempt
number, `remaining` the number of further attempts allowed. On an error with
attempts remaining it sleeps `delay` and re-invokes the operation; on the last
attempt the outcome — the raised error included — passes through unchanged.
The operation is modelled as a function of the attempt number returning a
result and its event trace. -/
def retryGo {α : Type} (op : Nat → Except Err α × List Event) (delay : Nat) :
    Nat → Nat → Except Err α × List Event
  | attempt, 0 => op attempt
  | attempt, remaining + 1 =>
    let r := op attempt
    match r.1 with
    | .ok a => (.ok a, r.2)
    | .error _ =>
      let rest := retryGo op delay (attempt + 1) remaining
      (rest.1, r.2 ++ Event.sleep delay :: rest.2)

/-- The retry decorator with `maxAttempts` total attempts and a fixed `delay`
between consecutive attempts, for `maxAttempts ≥ 1` (every decorated call
site in the source uses the default 3). -/
def retryT {α : Type} (maxAttempts delay : Nat)
    (op : Nat → Except Err α × List Event) : Except Err α × List Event :=
  retryGo op delay 1 (maxAttempts - 1)

/-! ## Stability detector (`_wait_for_file_stability`, backup_handler.py 270-304) -/

/-- Loop of `_wait_for_file_stability` after the first sample: `sizes k` is the
k-th `getsize` sample (`none` models an `OSError`), `lastSize` the previous
sample, and the fuel bounds how many further samples fit before the timeout.
A sample equal to the previous one returns true; an inaccessible path here is
caught and returns false; running out of time returns false. -/
def stabilityLoop (sizes : Nat → Option Nat) : Nat → Nat → Nat → Bool
  | _, _, 0 => false
  | lastSize, k, fuel + 1 =>
    match sizes k with
    | none => false
    | some cur => if cur = lastSize then true else stabilityLoop sizes cur (k + 1) fuel

/-- `_wait_for_file_stability`: the first `getsize` call sits outside the
try/except, so an inaccessible path there raises `OSError` to the caller;
only the later samples get the catch-and-return-false treatment. -/
def waitForFileStability (sizes : Nat → Option Nat) (maxChecks : Nat) :
    Except Err Bool :=
  match sizes 0 with
  | none => .error .osError
  | some s0 => .ok (stabilityLoop sizes s0 1 maxChecks)

/-! ## Database-name derivation and restore-command construction -/

/-- Database-name derivation (tool `_restore_backup` lines 309-315; the
ingestion handler lines 522-526 is the `targetDbName = none` special case):
the explicit target if truthy, else the first manifest `LogicalName` if
truthy, else a generated `restored_db_<unix_time>` name. -/
def deriveDatabaseName (targetDbName : Option String)
    (fileInfo : List FileManifestEntry) (unixTime : Nat) : String :=
  if pyTruthy targetDbName then pyStr targetDbName
  else
    let ln := fileInfo.head?.bind FileManifestEntry.logicalName
    if pyTruthy ln then pyStr ln
    else "restored_db_" ++ toString unixTime

/-- MOVE clause for one manifest entry (textually identical in both
implementations): destination extension `.ldf` for `Type` `"L"`, `.mdf`
otherwise. -/
def moveCommand (e : FileManifestEntry) : String :=
  let ext := if e.typ == some "L" then ".ldf" else ".mdf"
  "MOVE N\x27" ++ pyStr e.logicalName ++ "\x27 TO N\x27/var/opt/mssql/data/"
    ++ pyStr e.logicalName ++ ext ++ "\x27"

/-- The per-entry MOVE clauses joined with `",\n"`. -/
def moveClause (fileInfo : List FileManifestEntry) : String :=
  String.intercalate ",\n" (fileInfo.map moveCommand)

/-- The restore command text built by the tool (lines 334-342), reproduced
byte for byte from its f-string, 12-space indentation included. -/
def Tool.restoreSql (dbName : String) (fileInfo : List FileManifestEntry) : String :=
  "\n            RESTORE DATABASE [" ++ dbName
    ++ "]\n            FROM DISK = %s\n            WITH REPLACE,\n            RECOVERY,\n            STATS = 10,\n            "
    ++ moveClause fileInfo ++ "\n            "

/-- The restore command text built by the ingestion handler (lines 543-553),
reproduced byte for byte from its f-string, 16-space indentation included. -/
def Handler.restoreSql (dbName : String) (fileInfo : List FileManifestEntry) : String :=
  "\n                RESTORE DATABASE [" ++ dbName
    ++ "]\n                FROM DISK = %s\n                WITH REPLACE,\n                RECOVERY,\n                STATS = 10,\n                "
    ++ moveClause fileInfo ++ "\n                "

/-- The simplified fallback restore command of the ingestion handler
(lines 572-577): no MOVE remaps. -/
def Handler.fallbackSql (dbName : String) : String :=
  "\n                RESTORE DATABASE [" ++ dbName
    ++ "]\n                FROM DISK = %s\n                WITH REPLACE, RECOVERY, STATS = 10\n                "

/-! ## Online polling (`_wait_for_db_online`, both implementations) -/

/-- The online-polling loop: `pollStates k` is the `state_desc` row of the
k-th poll query (`none` = no row yet); the fuel is how many polls the fixed
timeout allows. `ONLINE` returns; a missing row, `RESTORING`, or any other
state keeps polling; an exhausted timeout raises `TimeoutError` with the
message text shared by both implementations. -/
def waitForDbOnline (pollStates : Nat → Option String) (dbName : String) :
    Nat → Nat → Except Err Unit × List Event
  | _, 0 =>
    (.error (.timeoutError ("Timeout waiting for database " ++ dbName ++ " to come online")), [])
  | k, fuel + 1 =>
    match pollStates k with
    | some st =>
      if st = "ONLINE" then (.ok (), [.pollQuery dbName])
      else
        let rest := waitForDbOnline pollStates dbName (k + 1) fuel
        (rest.1, .pollQuery dbName :: rest.2)
    | none =>
      let rest := waitForDbOnline pollStates dbName (k + 1) fuel
      (rest.1, .pollQuery dbName :: rest.2)

/-! ## Tool processor (`src/tool/backup_processor.py`) -/

/-- Environment of one tool run: the outcomes of the external boundaries
(filesystem, SQL engine, archive tool, clock) that the run observes.
`fileSize p` is `some` the size when the path exists, `none` otherwise;
`fileInfo` is keyed by the path handed to `RESTORE FILELISTONLY`;
`walk` is the `os.walk` output of the extraction directory as
(root, filenames) pairs in traversal order. -/
structure ToolEnv where
  fileSize : String → Option Nat
  connectOk : Nat → Bool
  retryAttempts : Nat
  retryDelay : Nat
  fileInfo : String → List FileManifestEntry
  restoreExecOk : Bool
  pollStates : Nat → Option String
  pollBudget : Nat
  unixTime : Nat
  timeStamp : String
  archiveOk : String → Bool
  sharedBackupDir : String
  extractOk : Bool
  walk : List (String × List String)

/-- `_validate_backup_file` (lines 429-474): existence check, then the
empty-file check; the header probe only logs warnings and never raises. -/
def Tool.validateBackupFile (env : ToolEnv) (path : String) : Except Err Unit :=
  match env.fileSize path with
  | none => .error (.fileNotFoundError ("Backup file not found: " ++ path))
  | some n =>
    if n = 0 then .error (.valueError ("Backup file is empty: " ++ path)) else .ok ()

/-- Connection retry loop of `_restore_backup` (lines 262-298): 1-based
`attempt`, fuel = attempts still allowed, a `retryDelay` sleep between
attempts, `ConnectionError` on exhaustion. Modelled for `retryAttempts ≥ 1`
(the configured default is 3). -/
def Tool.connectLoop (env : ToolEnv) : Nat → Nat → Except Err Unit × List Event
  | _, 0 =>
    (.error (.connectionError ("Failed to connect to SQL Server after "
      ++ toString env.retryAttempts ++ " attempts")), [])
  | attempt, fuel + 1 =>
    if env.connectOk attempt then (.ok (), [.connectAttempt])
    else if fuel = 0 then
      (.error (.connectionError ("Failed to connect to SQL Server after "
        ++ toString env.retryAttempts ++ " attempts")), [.connectAttempt])
    else
      let rest := Tool.connectLoop env (attempt + 1) fuel
      (rest.1, .connectAttempt :: .sleep env.retryDelay :: rest.2)

/-- `_restore_backup` (lines 217-363): connection retry loop, manifest read —
raising the no-manifest `ValueError` when the engine reports zero entries
before any restore command is issued — then name derivation, the
MOVE-remapped restore command, its execution, and the online poll. -/
def Tool.restoreBackup (env : ToolEnv) (backupPath : String)
    (targetDbName : Option String) :
    Except Err (String × List (Option String)) × List Event :=
  let c := Tool.connectLoop env 1 env.retryAttempts
  match c.1 with
  | .error e => (.error e, c.2)
  | .ok _ =>
    let fi := env.fileInfo backupPath
    let tr := c.2 ++ [Event.queryFileList backupPath]
    if fi.isEmpty then
      (.error (.valueError "No file information found in backup"), tr)
    else
      let dbName := deriveDatabaseName targetDbName fi env.unixTime
      let fileList := fi.map FileManifestEntry.logicalName
      let tr2 := tr ++ [Event.execRestore (Tool.restoreSql dbName fi)]
      if env.restoreExecOk then
        let w := waitForDbOnline env.pollStates dbName 0 env.pollBudget
        let tr3 := tr2 ++ Event.pollPhase dbName :: w.2
        match w.1 with
        | .error e => (.error e, tr3)
        | .ok _ => (.ok (dbName, fileList), tr3)
      else (.error .sqlError, tr2)

/-- Result dictionary of a tool run (`_process_dat` lines 186-190, with the
`archived_path` key added by `process_backup` when archival runs). -/
structure ToolResult where
  databaseName : String
  filesRestored : List (Option String)
  originalFile : String
  archivedPath : Option String
deriving Repr, DecidableEq

/-- `_process_dat` (lines 154-190): validation first, then the copy into the
shared directory, then the restore. -/
def Tool.processDat (env : ToolEnv) (datPath : String)
    (targetDbName : Option String) : Except Err ToolResult × List Event :=
  match Tool.validateBackupFile env datPath with
  | .error e => (.error e, [.processDat datPath])
  | .ok _ =>
    let sharedPath := joinPath env.sharedBackupDir (baseName datPath)
    let r := Tool.restoreBackup env sharedPath targetDbName
    let tr := Event.processDat datPath :: Event.copyToShared datPath sharedPath :: r.2
    match r.1 with
    | .error e => (.error e, tr)
    | .ok (dbName, files) => (.ok ⟨dbName, files, baseName datPath, none⟩, tr)

/-- Candidate discovery of `_process_rar` (lines 130-135): `os.walk`
traversal order, keeping names whose lowercase form ends in `.dat`. -/
def Tool.collectDatFiles (walk : List (String × List String)) : List String :=
  walk.flatMap (fun rf =>
    (rf.2.filter (fun f => strEndsWith (pyLower f) ".dat")).map (fun f => joinPath rf.1 f))

/-- `_process_rar` (lines 99-152): extraction, candidate discovery, an error
when no candidate exists, and processing of exactly the first candidate. -/
def Tool.processRar (env : ToolEnv) (rarPath : String)
    (targetDbName : Option String) : Except Err ToolResult × List Event :=
  if env.extractOk then
    match Tool.collectDatFiles env.walk with
    | [] =>
      (.error (.valueError "No .dat backup files found in RAR archive"),
       [.extractArchive rarPath])
    | first :: _ =>
      let r := Tool.processDat env first targetDbName
      (r.1, Event.extractArchive rarPath :: r.2)
  else (.error .extractionError, [.extractArchive rarPath])

/-- Destination path computed by `_archive_file` (lines 476-507):
`<dir>/archived/<stem>_<timestamp><ext>`. -/
def Tool.archivedPathOf (env : ToolEnv) (path : String) : String :=
  joinPath (joinPath (dirName path) "archived")
    (stemOf path ++ "_" ++ env.timeStamp ++ extOf path)

/-- `process_backup` (lines 50-97): the size probe (`getsize` raises when the
file is gone), extension dispatch, and then — with no exception guard around
it — the archival move, whose failure therefore propagates out of the run. -/
def Tool.processBackup (env : ToolEnv) (backupPath : String)
    (targetDbName : Option String) (archiveProcessed : Bool) :
    Except Err ToolResult × List Event :=
  match env.fileSize backupPath with
  | none => (.error (.fileNotFoundError backupPath), [])
  | some _ =>
    let ext := pyLower (extOf backupPath)
    let r :=
      if ext = ".rar" then Tool.processRar env backupPath targetDbName
      else if ext = ".dat" then Tool.processDat env backupPath targetDbName
      else (.error (.valueError ("Unsupported file type: " ++ ext)), [])
    match r.1 with
    | .error e => (.error e, r.2)
    | .ok res =>
      if archiveProcessed then
        if env.archiveOk backupPath then
          (.ok ⟨res.databaseName, res.filesRestored, res.originalFile,
              some (Tool.archivedPathOf env backupPath)⟩,
           r.2 ++ [.archiveMove backupPath])
        else (.error .osError, r.2)
      else (.ok res, r.2)

/-! ## Ingestion-service handler (`src/ingestion_service/core/backup_handler.py`) -/

/-- Environment of one handler run; fields as in `ToolEnv`, plus the
outcomes of the two restore tiers (`fullRestoreOk` for the MOVE-remapped
command, `fallbackRestoreOk` for the simplified fallback) and the
`sys.database_files` catalog used by the fallback path. -/
structure HandlerEnv where
  fileExists : String → Bool
  connectOk : Bool
  fileInfo : String → List FileManifestEntry
  fullRestoreOk : Bool
  fallbackRestoreOk : Bool
  dbFiles : String → List (Option String)
  pollStates : Nat → Option String
  pollBudget : Nat
  unixTime : Nat
  archiveOk : String → Bool
  sharedBackupDir : String
  extractOk : Bool
  walk : List (String × List String)

/-- One undecorated invocation of `restore_backup` (lines 459-604): existence
check, copy to the shared volume, connect, `RESTORE FILELISTONLY` — returning
`None` rather than raising when the manifest is empty — then the MOVE-remapped
restore and the online poll; an engine-reported failure of the restore call
switches to the simplified fallback command under a generated name, followed
by a file-catalog query. A `TimeoutError` from the poll is not a
`pymssql.Error`, so it propagates without triggering the fallback. -/
def Handler.restoreBackupOnce (env : HandlerEnv) (backupPath : String) :
    Except Err (Option (String × List (Option String))) × List Event :=
  if env.fileExists backupPath then
    let sharedPath := joinPath env.sharedBackupDir (baseName backupPath)
    let tr0 := [Event.restoreRun backupPath, Event.copyToShared backupPath sharedPath]
    if env.connectOk then
      let fi := env.fileInfo sharedPath
      let tr := tr0 ++ [Event.connectAttempt, Event.queryFileList sharedPath]
      if fi.isEmpty then (.ok none, tr)
      else
        let dbName := deriveDatabaseName none fi env.unixTime
        let fileList := fi.map FileManifestEntry.logicalName
        let tr2 := tr ++ [Event.execRestore (Handler.restoreSql dbName fi)]
        if env.fullRestoreOk then
          let w := waitForDbOnline env.pollStates dbName 0 env.pollBudget
          let tr3 := tr2 ++ Event.pollPhase dbName :: w.2
          match w.1 with
          | .error e => (.error e, tr3)
          | .ok _ => (.ok (some (dbName, fileList)), tr3)
        else
          let dbName2 := "restored_db_" ++ toString env.unixTime
          let tr4 := tr2 ++ [Event.execRestore (Handler.fallbackSql dbName2)]
          if env.fallbackRestoreOk then
            let w := waitForDbOnline env.pollStates dbName2 0 env.pollBudget
            let tr5 := tr4 ++ Event.pollPhase dbName2 :: w.2
            match w.1 with
            | .error e => (.error e, tr5)
            | .ok _ =>
              (.ok (some (dbName2, env.dbFiles dbName2)), tr5 ++ [Event.queryDbFiles dbName2])
          else (.error .sqlError, tr4)
    else (.error (.connectionError "Login failed"), tr0)
  else
    (.error (.fileNotFoundError ("Backup file not found: " ++ backupPath)),
     [Event.restoreRun backupPath])

/-- `restore_backup` as called: decorated with `@retry(max_attempts=3, delay=5)`.
The decorator catches every `Exception`, so a poll `TimeoutError` re-invokes
the whole body — polling included. -/
def Handler.restoreBackup (env : HandlerEnv) (backupPath : String) :
    Except Err (Option (String × List (Option String))) × List Event :=
  retryT 3 5 (fun _ => Handler.restoreBackupOnce env backupPath)

/-- One undecorated invocation of `process_backup_file` (lines 412-457):
restore via the decorated `restore_backup`; a `None` restore outcome passes
through as `None`; on success the archival move runs inside try/except and
its failure is swallowed, the database name being returned either way. -/
def Handler.processBackupFileOnce (env : HandlerEnv) (filePath : String) :
    Except Err (Option String) × List Event :=
  if env.fileExists filePath then
    let r := Handler.restoreBackup env filePath
    match r.1 with
    | .error e => (.error e, r.2)
    | .ok none => (.ok none, r.2)
    | .ok (some (dbName, _)) =>
      if env.archiveOk filePath then (.ok (some dbName), r.2 ++ [Event.archiveMove filePath])
      else (.ok (some dbName), r.2)
  else (.error (.fileNotFoundError ("Backup file not found: " ++ filePath)), [])

/-- `process_backup_file` as called: decorated with
`@retry(max_attempts=3, delay=5)`. -/
def Handler.processBackupFile (env : HandlerEnv) (filePath : String) :
    Except Err (Option String) × List Event :=
  retryT 3 5 (fun _ => Handler.processBackupFileOnce env filePath)

/-- Candidate discovery of `process_rar_file` (lines 343-350): `os.walk`
order, names ending `.dat` (case-sensitive here, unlike the tool). -/
def Handler.collectDatFiles (walk : List (String × List String)) : List String :=
  walk.flatMap (fun rf =>
    (rf.2.filter (fun f => strEndsWith f ".dat")).map (fun f => joinPath rf.1 f))

/-- The candidate loop of `process_rar_file` (lines 349-357): candidates are
tried in discovery order; a truthy restore result breaks out of the loop, a
`None` result moves on to the next candidate, an exception propagates. -/
def Handler.tryDats (env : HandlerEnv) :
    List String → Except Err (Option String) × List Event
  | [] => (.ok none, [])
  | p :: rest =>
    let r := Handler.processBackupFile env p
    match r.1 with
    | .error e => (.error e, r.2)
    | .ok (some db) => (.ok (some db), r.2)
    | .ok none =>
      let r2 := Handler.tryDats env rest
      (r2.1, r.2 ++ r2.2)

/-- One undecorated invocation of `process_rar_file` (lines 306-382):
existence check, extraction, the candidate loop, then — in the finally
block — archival of the RAR (errors swallowed) when a restore succeeded. -/
def Handler.processRarFileOnce (env : HandlerEnv) (rarPath : String) :
    Except Err (Option String) × List Event :=
  if env.fileExists rarPath then
    if env.extractOk then
      let r := Handler.tryDats env (Handler.collectDatFiles env.walk)
      match r.1 with
      | .ok (some db) =>
        if env.archiveOk rarPath then
          (.ok (some db), Event.extractArchive rarPath :: r.2 ++ [Event.archiveMove rarPath])
        else (.ok (some db), Event.extractArchive rarPath :: r.2)
      | other => (other, Event.extractArchive rarPath :: r.2)
    else (.error .extractionError, [Event.extractArchive rarPath])
  else (.error (.fileNotFoundError ("RAR file not found: " ++ rarPath)), [])

/-- `process_rar_file` as called: decorated with
`@retry(max_attempts=3, delay=5)`. -/
def Handler.processRarFile (env : HandlerEnv) (rarPath : String) :
    Except Err (Option String) × List Event :=
  retryT 3 5 (fun _ => Handler.processRarFileOnce env rarPath)

/-- Terminal status reported by `on_created` (lines 232-268): a truthy
database name completes the run; a `None` result or an exception fails it. -/
inductive RunStatus where
  | completed (dbName : String)
  | failed
deriving Repr, DecidableEq

/-- Classification of a processing result into the terminal status that
`on_created` reports. -/
def Handler.runOutcome : Except Err (Option String) → RunStatus
  | .ok (some dbName) => .completed dbName
  | .ok none => .failed
  | .error _ => .failed

/-! ## Monitor (`src/tool/monitor.py`) -/

/-- `_find_backup_files` (lines 102-129): the directory entries that are not
yet in the processed set, match a configured extension case-insensitively,
and are regular files, in listing order; the caller joins each returned name
with the watch directory before dispatching it. -/
def Monitor.findBackupFiles (watchDirOk : Bool) (listing : List String)
    (patterns : List String) (isFile : String → Bool)
    (processedFiles : List String) : List String :=
  if watchDirOk then
    listing.filter (fun fn =>
      !processedFiles.contains fn
        && patterns.any (fun ext => strEndsWith (pyLower fn) ext)
        && isFile fn)
  else []

/-- `process_file` (lines 131-157): runs the processor on the dispatched
path; on success the base filename is added to the processed set and true is
returned, on an exception the set is left unchanged and false is returned. -/
def Monitor.processFile (env : ToolEnv) (processedFiles : List String)
    (filePath : String) (archiveProcessed : Bool) : List String × Bool :=
  match (Tool.processBackup env filePath none archiveProcessed).1 with
  | .ok _ => (processedFiles.insert (baseName filePath), true)
  | .error _ => (processedFiles, false)

/-! ## Concrete runs -/

/-- A data-kind manifest entry for a database called MyDB. -/
def myDbEntry : FileManifestEntry := ⟨some "MyDB", some "D"⟩

/-- A log-kind manifest entry for the MyDB log file. -/
def myDbLogEntry : FileManifestEntry := ⟨some "MyDB_log", some "L"⟩

/-- Tool environment in which the whole restore pipeline succeeds but the
archival move fails. -/
def envArchFailTool : ToolEnv :=
  ⟨fun p => if p == "/watch/backup1.dat" then some 100 else none,
   fun _ => true, 3, 5,
   fun p => if p == "/shared_backup/backup1.dat" then [myDbEntry, myDbLogEntry] else [],
   true,
   fun _ => some "ONLINE", 60,
   1700000000, "20240101_120000",
   fun _ => false,
   "/shared_backup", true, []⟩

/-- Handler environment in which the restore succeeds but the archival move
fails. -/
def envArchFailHandler : HandlerEnv :=
  ⟨fun p => p == "/watch/backup1.dat", true,
   fun p => if p == "/shared_backup/backup1.dat" then [myDbEntry, myDbLogEntry] else [],
   true, true, fun _ => [],
   fun _ => some "ONLINE", 60,
   1700000000,
   fun _ => false,
   "/shared_backup", true, []⟩

/-- Handler environment whose online poll never leaves RESTORING, so the poll
phase times out on every invocation. -/
def envPollStuckHandler : HandlerEnv :=
  ⟨fun p => p == "/watch/b.dat", true,
   fun p => if p == "/shared_backup/b.dat" then [myDbEntry] else [],
   true, true, fun _ => [],
   fun _ => some "RESTORING", 2,
   1700000000,
   fun _ => true,
   "/shared_backup", true, []⟩

/-- Tool environment whose online poll never leaves RESTORING. -/
def envPollStuckTool : ToolEnv :=
  ⟨fun p => if p == "/watch/b.dat" then some 100 else none,
   fun _ => true, 3, 5,
   fun p => if p == "/shared_backup/b.dat" then [myDbEntry] else [],
   true,
   fun _ => some "RESTORING", 2,
   1700000000, "20240101_120000",
   fun _ => true,
   "/shared_backup", true, []⟩

/-- Handler environment for an archive holding two candidates, a.dat and
b.dat in traversal order, where a.dat turns out to have an empty manifest and
b.dat restores fine. -/
def envTwoDatsHandler : HandlerEnv :=
  ⟨fun p => p == "/watch/multi.rar" || p == "/tmp/extract/a.dat" || p == "/tmp/extract/b.dat",
   true,
   fun p => if p == "/shared_backup/b.dat" then [myDbEntry] else [],
   true, true, fun _ => [],
   fun _ => some "ONLINE", 60,
   1700000000,
   fun _ => true,
   "/shared_backup", true,
   [("/tmp/extract", ["a.dat", "b.dat"])]⟩

/-- Tool environment for an archive holding two candidates, a.dat and b.dat
in traversal order, both restorable. -/
def envTwoDatsTool : ToolEnv :=
  ⟨fun p => if p == "/watch/multi.rar" || p == "/tmp/extract/a.dat" || p == "/tmp/extract/b.dat"
      then some 100 else none,
   fun _ => true, 3, 5,
   fun p => if p == "/shared_backup/a.dat" || p == "/shared_backup/b.dat" then [myDbEntry] else [],
   true,
   fun _ => some "ONLINE", 60,
   1700000000, "20240101_120000",
   fun _ => true,
   "/shared_backup", true,
   [("/tmp/extract", ["a.dat", "b.dat"])]⟩

/-- Tool environment in which every manifest read returns zero entries. -/
def envNoManifestTool : ToolEnv :=
  ⟨fun p => if p == "/watch/backup1.dat" then some 100 else none,
   fun _ => true, 3, 5,
   fun _ => [],
   true,
   fun _ => some "ONLINE", 60,
   1700000000, "20240101_120000",
   fun _ => true,
   "/shared_backup", true, []⟩

/-- Handler environment in which every manifest read returns zero entries. -/
def envNoManifestHandler : HandlerEnv :=
  ⟨fun p => p == "/watch/backup1.dat", true,
   fun _ => [],
   true, true, fun _ => [],
   fun _ => some "ONLINE", 60,
   1700000000,
   fun _ => true,
   "/shared_backup", true, []⟩

/-- Tool environment holding an empty (zero-byte) direct backup file. -/
def envEmptyFileTool : ToolEnv :=
  ⟨fun p => if p == "/watch/empty.dat" then some 0 else none,
   fun _ => true, 3, 5,
   fun _ => [myDbEntry],
   true,
   fun _ => some "ONLINE", 60,
   1700000000, "20240101_120000",
   fun _ => true,
   "/shared_backup", true, []⟩

/-- An operation that fails on every attempt, recording which attempt ran. -/
def alwaysFailingOp : Nat → Except Err Unit × List Event :=
  fun attempt => (.error (.valueError ("attempt " ++ toString attempt)), [])

/-! ## Helper lemmas -/

/-- When the first attempt succeeds, the retry wrapper returns it unchanged. -/
theorem retryT_three_firstOk {α : Type} (d : Nat) (op : Nat → Except Err α × List Event)
    (a : α) (t : List Event) (h : op 1 = (.ok a, t)) : retryT 3 d op = (.ok a, t) := by
  simp [retryT, retryGo, h]

/-- When every attempt fails, the retry wrapper runs the operation three
times, sleeps the fixed delay between consecutive attempts, and propagates
the error of the third attempt. -/
theorem retryT_three_allFail {α : Type} (d : Nat) (op : Nat → Except Err α × List Event)
    (errs : Nat → Err) (trs : Nat → List Event)
    (h : ∀ k, op k = (.error (errs k), trs k)) :
    retryT 3 d op
      = (.error (errs 3), trs 1 ++ Event.sleep d :: (trs 2 ++ Event.sleep d :: trs 3)) := by
  simp [retryT, retryGo, h 1, h 2, h 3]

/-- A poll sequence that never reports ONLINE makes the polling loop end in
the shared TimeoutError. -/
theorem waitForDbOnline_stuck (ps : Nat → Option String) (db : String)
    (h : ∀ k, ps k ≠ some "ONLINE") :
    ∀ fuel k, (waitForDbOnline ps db k fuel).1
      = .error (.timeoutError ("Timeout waiting for database " ++ db ++ " to come online")) := by
  intro fuel
  induction fuel with
  | zero => intro k; rfl
  | succ n ih =>
    intro k
    cases hk : ps k with
    | none => simp [waitForDbOnline, hk, ih]
    | some st =>
      have hne : st ≠ "ONLINE" := by
        intro he; exact h k (by rw [hk, he])
      simp [waitForDbOnline, hk, hne, ih]

/-- Every event the polling loop emits is a poll query. -/
theorem waitForDbOnline_trace_all_pollQuery (ps : Nat → Option String) (db : String) :
    ∀ fuel k, ∀ e ∈ (waitForDbOnline ps db k fuel).2, e = .pollQuery db := by
  intro fuel
  induction fuel with
  | zero => intro k e he; simp [waitForDbOnline] at he
  | succ n ih =>
    intro k e he
    rw [waitForDbOnline] at he
    cases hk : ps k with
    | none =>
      rw [hk] at he
      simp only [List.mem_cons] at he
      rcases he with h1 | h2
      · exact h1
      · exact ih (k + 1) e h2
    | some st =>
      rw [hk] at he
      by_cases hs : st = "ONLINE"
      · simp only [hs, if_true, List.mem_singleton] at he
        exact he
      · simp only [hs, if_false, List.mem_cons] at he
        rcases he with h1 | h2
        · exact h1
        · exact ih (k + 1) e h2

/-- The polling loop never emits a poll-phase marker. -/
theorem waitForDbOnline_countP_pollPhase (ps : Nat → Option String) (db : String)
    (fuel k : Nat) : (waitForDbOnline ps db k fuel).2.countP Event.isPollPhase = 0 := by
  rw [List.countP_eq_zero]
  intro e he
  rw [waitForDbOnline_trace_all_pollQuery ps db fuel k e he]
  simp [Event.isPollPhase]

/-- When the first connection attempt succeeds, the connection retry loop
returns at once with a single connection event. -/
theorem connectLoop_first_ok (env : ToolEnv) (f : Nat) (h : env.connectOk 1 = true) :
    Tool.connectLoop env 1 (f + 1) = (.ok (), [.connectAttempt]) := by
  simp [Tool.connectLoop, h]

/-- Every event the connection retry loop emits is a connection attempt or a
sleep. -/
theorem connectLoop_trace_events (env : ToolEnv) :
    ∀ fuel attempt, ∀ e ∈ (Tool.connectLoop env attempt fuel).2,
      e = .connectAttempt ∨ e = .sleep env.retryDelay := by
  intro fuel
  induction fuel with
  | zero => intro attempt e he; simp [Tool.connectLoop] at he
  | succ n ih =>
    intro attempt e he
    rw [Tool.connectLoop] at he
    by_cases hc : env.connectOk attempt
    · rw [if_pos hc] at he
      simp at he
      exact Or.inl he
    · rw [if_neg hc] at he
      by_cases hn : n = 0
      · rw [if_pos hn] at he
        simp at he
        exact Or.inl he
      · rw [if_neg hn] at he
        rcases List.mem_cons.mp he with h1 | h2
        · exact Or.inl h1
        · rcases List.mem_cons.mp h2 with h3 | h4
          · exact Or.inr h3
          · exact ih attempt.succ e h4

/-- The derived database name is never the empty string. -/
theorem deriveDatabaseName_ne_empty (t : Option String) (fi : List FileManifestEntry)
    (u : Nat) : deriveDatabaseName t fi u ≠ "" := by
  rw [deriveDatabaseName]
  by_cases h : pyTruthy t = true
  · rw [if_pos h]
    cases t with
    | none => simp [pyTruthy] at h
    | some s => simpa [pyStr] using (by simpa [pyTruthy] using h : s ≠ "")
  · rw [if_neg h]
    by_cases h2 : pyTruthy (fi.head?.bind FileManifestEntry.logicalName) = true
    · rw [if_pos h2]
      cases hh : fi.head?.bind FileManifestEntry.logicalName with
      | none => rw [hh] at h2; simp [pyTruthy] at h2
      | some s =>
        rw [hh] at h2
        simpa [pyStr] using (by simpa [pyTruthy] using h2 : s ≠ "")
    · rw [if_neg h2]
      intro hcontra
      have hlen := congrArg String.length hcontra
      rw [String.length_append] at hlen
      have h12 : ("restored_db_" : String).length = 12 := rfl
      have h0 : ("" : String).length = 0 := rfl
      omega

/-! ## Claim theorems -/

/-- C5: an operation wrapped by the retry policy with max attempts 3 that
fails on every attempt is invoked exactly 3 times (the three per-attempt
traces appear in order), with the fixed configured delay slept between
consecutive attempts, and the wrapper propagates the third attempt's error;
no successful result is ever produced. -/
theorem retry_exhaustion {α : Type} (delay : Nat) (op : Nat → Except Err α × List Event)
    (errs : Nat → Err) (trs : Nat → List Event)
    (h : ∀ k, op k = (.error (errs k), trs k)) :
    retryT 3 delay op
      = (.error (errs 3), trs 1 ++ Event.sleep delay :: (trs 2 ++ Event.sleep delay :: trs 3))
    ∧ (retryT 3 delay op).1.isOk = false := by
  have he := retryT_three_allFail delay op errs trs h
  exact ⟨he, by rw [he]; rfl⟩

/-- Witness for C5 at a concrete always-failing operation. -/
theorem retry_exhaustion_witness :
    retryT 3 7 alwaysFailingOp
      = (.error (.valueError "attempt 3"), [Event.sleep 7, Event.sleep 7])
    ∧ (retryT 3 7 alwaysFailingOp).1.isOk = false := by
  have h := retry_exhaustion 7 alwaysFailingOp
    (fun k => .valueError ("attempt " ++ toString k)) (fun _ => []) (fun _ => rfl)
  exact ⟨h.1.trans rfl, h.2⟩

/-- C7: for a non-empty manifest the restore command carries exactly one MOVE
remap per manifest entry, each using a `.ldf` destination extension when the
entry's Type is the log kind "L" and `.mdf` for every other type, the remaps
joined by commas, inside a RESTORE DATABASE directive WITH REPLACE, RECOVERY
and STATS = 10 — in both implementations' command builders. -/
theorem restore_command_construction (db : String) (fi : List FileManifestEntry)
    (_hne : fi ≠ []) :
    (fi.map moveCommand).length = fi.length
    ∧ (∀ e ∈ fi, moveCommand e
        = "MOVE N\x27" ++ pyStr e.logicalName ++ "\x27 TO N\x27/var/opt/mssql/data/"
          ++ pyStr e.logicalName ++ (if e.typ = some "L" then ".ldf" else ".mdf") ++ "\x27")
    ∧ Tool.restoreSql db fi
        = "\n            RESTORE DATABASE [" ++ db
          ++ "]\n            FROM DISK = %s\n            WITH REPLACE,\n            RECOVERY,\n            STATS = 10,\n            "
          ++ String.intercalate ",\n" (fi.map moveCommand) ++ "\n            "
    ∧ Handler.restoreSql db fi
        = "\n                RESTORE DATABASE [" ++ db
          ++ "]\n                FROM DISK = %s\n                WITH REPLACE,\n                RECOVERY,\n                STATS = 10,\n                "
          ++ String.intercalate ",\n" (fi.map moveCommand) ++ "\n                " := by
  refine ⟨List.length_map fi moveCommand, ?_, rfl, rfl⟩
  intro e _
  rw [moveCommand]
  by_cases h : e.typ = some "L"
  · simp [h]
  · simp [h]

/-- Witness for C7 at a concrete two-entry manifest: a data entry gets `.mdf`,
the log entry gets `.ldf`, one MOVE per entry. -/
theorem restore_command_construction_witness :
    ([myDbEntry, myDbLogEntry].map moveCommand).length = 2
    ∧ moveCommand myDbLogEntry
        = "MOVE N\x27MyDB_log\x27 TO N\x27/var/opt/mssql/data/MyDB_log.ldf\x27"
    ∧ moveCommand myDbEntry
        = "MOVE N\x27MyDB\x27 TO N\x27/var/opt/mssql/data/MyDB.mdf\x27" := by
  have h := restore_command_construction "MyDB" [myDbEntry, myDbLogEntry] (by decide)
  refine ⟨h.1, ?_, ?_⟩
  · exact (h.2.1 myDbLogEntry (by decide)).trans rfl
  · exact (h.2.1 myDbEntry (by decide)).trans rfl

/-- C9: a call to process_backup on an existing direct .dat backup file of
size zero fails with the "Backup file is empty" error before any copy into
the shared directory and before any database connection is attempted. -/
theorem empty_file_precheck (env : ToolEnv) (p : String) (t : Option String) (ap : Bool)
    (hsize : env.fileSize p = some 0) (hext : pyLower (extOf p) = ".dat") :
    (Tool.processBackup env p t ap).1 = .error (.valueError ("Backup file is empty: " ++ p))
    ∧ (Tool.processBackup env p t ap).2.countP Event.isCopy = 0
    ∧ (Tool.processBackup env p t ap).2.countP Event.isConnect = 0 := by
  have hval : Tool.validateBackupFile env p
      = .error (.valueError ("Backup file is empty: " ++ p)) := by
    simp [Tool.validateBackupFile, hsize]
  have hdat : Tool.processDat env p t
      = (.error (.valueError ("Backup file is empty: " ++ p)), [.processDat p]) := by
    simp [Tool.processDat, hval]
  have hpb : Tool.processBackup env p t ap
      = (.error (.valueError ("Backup file is empty: " ++ p)), [.processDat p]) := by
    simp [Tool.processBackup, hsize, hext, hdat]
  refine ⟨by rw [hpb], by rw [hpb]; rfl, by rw [hpb]; rfl⟩

/-- Witness for C9 at a concrete environment holding a zero-byte file. -/
theorem empty_file_precheck_witness :
    (Tool.processBackup envEmptyFileTool "/watch/empty.dat" none true).1
      = .error (.valueError "Backup file is empty: /watch/empty.dat")
    ∧ (Tool.processBackup envEmptyFileTool "/watch/empty.dat" none true).2.countP Event.isCopy = 0
    ∧ (Tool.processBackup envEmptyFileTool "/watch/empty.dat" none true).2.countP Event.isConnect = 0 := by
  have h := empty_file_precheck envEmptyFileTool "/watch/empty.dat" none true rfl (by decide)
  exact ⟨h.1.trans (by rfl), h.2.1, h.2.2⟩

/-- C10: when the stability wait's very first size sample already finds the
path inaccessible, the OSError propagates to the caller; an inaccessible
sample after the first one is caught and makes the wait return false. -/
theorem stability_first_sample_oserror :
    (∀ (sizes : Nat → Option Nat) (maxChecks : Nat),
       sizes 0 = none → waitForFileStability sizes maxChecks = .error .osError)
    ∧ (∀ (sizes : Nat → Option Nat) (maxChecks : Nat) (s : Nat),
       sizes 0 = some s → sizes 1 = none →
       waitForFileStability sizes maxChecks = .ok false) := by
  constructor
  · intro sizes maxChecks h
    simp [waitForFileStability, h]
  · intro sizes maxChecks s h0 h1
    rw [waitForFileStability, h0]
    cases maxChecks with
    | zero => rfl
    | succ n =>
      simp [stabilityLoop, h1]

/-- Witness for C10 at concrete sample sequences. -/
theorem stability_first_sample_oserror_witness :
    waitForFileStability (fun _ => none) 30 = .error .osError
    ∧ waitForFileStability (fun k => if k = 0 then some 100 else none) 30 = .ok false := by
  exact ⟨stability_first_sample_oserror.1 (fun _ => none) 30 rfl,
    stability_first_sample_oserror.2 (fun k => if k = 0 then some 100 else none) 30 100 rfl rfl⟩

/-- C6: the restored database name is the explicit target when a truthy one
is provided, else the first manifest entry's logical name when truthy, else
the generated restored_db_<unix_time> name; the derived name is never empty,
and every successful tool restore returns exactly the derived name. -/
theorem database_name_derivation :
    (∀ (s : String) (fi : List FileManifestEntry) (u : Nat),
       s ≠ "" → deriveDatabaseName (some s) fi u = s)
    ∧ (∀ (t : Option String) (e : FileManifestEntry) (es : List FileManifestEntry)
         (u : Nat) (l : String),
       pyTruthy t = false → e.logicalName = some l → l ≠ "" →
       deriveDatabaseName t (e :: es) u = l)
    ∧ (∀ (t : Option String) (e : FileManifestEntry) (es : List FileManifestEntry) (u : Nat),
       pyTruthy t = false → pyTruthy e.logicalName = false →
       deriveDatabaseName t (e :: es) u = "restored_db_" ++ toString u)
    ∧ (∀ (t : Option String) (fi : List FileManifestEntry) (u : Nat),
       deriveDatabaseName t fi u ≠ "")
    ∧ (∀ (env : ToolEnv) (p : String) (t : Option String) (db : String)
         (fl : List (Option String)),
       (Tool.restoreBackup env p t).1 = .ok (db, fl) →
       db = deriveDatabaseName t (env.fileInfo p) env.unixTime ∧ db ≠ "") := by
  refine ⟨?_, ?_, ?_, deriveDatabaseName_ne_empty, ?_⟩
  · intro s fi u hs
    simp [deriveDatabaseName, pyTruthy, pyStr, bne_iff_ne, hs]
  · intro t e es u l ht he hl
    rw [deriveDatabaseName, ht]
    simp only [Bool.false_eq_true, if_false]
    simp [he, pyTruthy, pyStr, bne_iff_ne, hl]
  · intro t e es u ht hln
    simp [deriveDatabaseName, ht, hln]
  · intro env p t db fl h
    cases hc : (Tool.connectLoop env 1 env.retryAttempts).1 with
    | error err => simp [Tool.restoreBackup, hc] at h
    | ok u0 =>
      by_cases hfi : (env.fileInfo p).isEmpty
      · simp [Tool.restoreBackup, hc, hfi] at h
      · by_cases hre : env.restoreExecOk
        · cases hw : (waitForDbOnline env.pollStates
              (deriveDatabaseName t (env.fileInfo p) env.unixTime) 0 env.pollBudget).1 with
          | error werr => simp [Tool.restoreBackup, hc, hfi, hre, hw] at h
          | ok u1 =>
            simp only [Tool.restoreBackup, hc, hfi, hre, hw, Bool.false_eq_true,
              if_false, if_true] at h
            have hdb := (Prod.mk.injEq _ _ _ _).mp (Except.ok.injEq _ _ |>.mp h) |>.1
            exact ⟨hdb.symm, by rw [← hdb]; exact deriveDatabaseName_ne_empty _ _ _⟩
        · simp [Tool.restoreBackup, hc, hfi, hre] at h

/-- Witness for C6 at concrete inputs covering all three derivation tiers,
non-emptiness, and a successful concrete restore. -/
theorem database_name_derivation_witness :
    deriveDatabaseName (some "Explicit") [myDbEntry] 42 = "Explicit"
    ∧ deriveDatabaseName none [myDbEntry] 42 = "MyDB"
    ∧ deriveDatabaseName none [⟨none, some "D"⟩] 42 = "restored_db_" ++ toString 42
    ∧ deriveDatabaseName (some "") [myDbEntry] 42 ≠ ""
    ∧ "MyDB" = deriveDatabaseName none
        (envArchFailTool.fileInfo "/shared_backup/backup1.dat") envArchFailTool.unixTime := by
  refine ⟨database_name_derivation.1 "Explicit" [myDbEntry] 42 (by decide),
    database_name_derivation.2.1 none myDbEntry [] 42 "MyDB" rfl rfl (by decide),
    database_name_derivation.2.2.1 none ⟨none, some "D"⟩ [] 42 rfl rfl,
    database_name_derivation.2.2.2.1 (some "") [myDbEntry] 42,
    (database_name_derivation.2.2.2.2 envArchFailTool "/shared_backup/backup1.dat" none
      "MyDB" [some "MyDB", some "MyDB_log"] (by decide)).1⟩

/-- C8: a filename is added to the monitor's processed set only through a
successful run; a failed run leaves the set unchanged, and an eligible
not-yet-processed filename is returned by the dispatch scan; a filename
already in the set is never returned by the scan again, so re-presenting it
triggers no second restore. -/
theorem processed_set_bookkeeping :
    (∀ (env : ToolEnv) (processed : List String) (p : String) (ap : Bool) (fn : String),
       fn ∈ (Monitor.processFile env processed p ap).1 →
       fn ∈ processed ∨ (fn = baseName p ∧ (Tool.processBackup env p none ap).1.isOk = true))
    ∧ (∀ (env : ToolEnv) (processed : List String) (p : String) (ap : Bool),
       (Monitor.processFile env processed p ap).2 = false →
       (Monitor.processFile env processed p ap).1 = processed)
    ∧ (∀ (wd : Bool) (listing patterns : List String) (isFile : String → Bool)
         (processed : List String) (fn : String),
       fn ∈ processed →
       fn ∉ Monitor.findBackupFiles wd listing patterns isFile processed)
    ∧ (∀ (listing patterns : List String) (isFile : String → Bool)
         (processed : List String) (fn : String),
       fn ∈ listing → fn ∉ processed →
       patterns.any (fun ext => strEndsWith (pyLower fn) ext) = true →
       isFile fn = true →
       fn ∈ Monitor.findBackupFiles true listing patterns isFile processed) := by
  refine ⟨?_, ?_, ?_, ?_⟩
  · intro env processed p ap fn hm
    cases hr : (Tool.processBackup env p none ap).1 with
    | ok v =>
      have hmf : Monitor.processFile env processed p ap
          = (processed.insert (baseName p), true) := by
        rw [Monitor.processFile, hr]
      rw [hmf] at hm
      rcases List.mem_insert_iff.mp hm with h | h
      · exact Or.inr ⟨h, rfl⟩
      · exact Or.inl h
    | error e =>
      have hmf : Monitor.processFile env processed p ap = (processed, false) := by
        rw [Monitor.processFile, hr]
      rw [hmf] at hm
      exact Or.inl hm
  · intro env processed p ap h2
    cases hr : (Tool.processBackup env p none ap).1 with
    | ok v =>
      have hmf : Monitor.processFile env processed p ap
          = (processed.insert (baseName p), true) := by
        rw [Monitor.processFile, hr]
      rw [hmf] at h2
      simp at h2
    | error e =>
      have hmf : Monitor.processFile env processed p ap = (processed, false) := by
        rw [Monitor.processFile, hr]
      rw [hmf]
  · intro wd listing patterns isFile processed fn hmem hin
    cases wd with
    | false => simp [Monitor.findBackupFiles] at hin
    | true =>
      simp only [Monitor.findBackupFiles, if_true, List.mem_filter,
        Bool.and_eq_true, Bool.not_eq_true'] at hin
      have hc : processed.elem fn = false := hin.2.1.1
      have ht : processed.elem fn = true := List.elem_iff.mpr hmem
      rw [ht] at hc
      exact Bool.noConfusion hc
  · intro listing patterns isFile processed fn h1 h2 h3 h4
    simp only [Monitor.findBackupFiles, if_true, List.mem_filter,
      Bool.and_eq_true, Bool.not_eq_true']
    refine ⟨h1, ⟨?_, h3⟩, h4⟩
    cases hcc : processed.contains fn with
    | false => rfl
    | true => exact absurd (List.elem_iff.mp hcc) h2

/-- Witness for C8: a successful run inserts the base filename; membership in
the processed set suppresses dispatch; a fresh eligible name is dispatched. -/
theorem processed_set_bookkeeping_witness :
    ("multi.rar" = baseName "/watch/multi.rar"
       ∧ (Tool.processBackup envTwoDatsTool "/watch/multi.rar" none true).1.isOk = true)
    ∧ (Monitor.processFile envEmptyFileTool ["seen.dat"] "/watch/empty.dat" true).1 = ["seen.dat"]
    ∧ "done.dat" ∉ Monitor.findBackupFiles true ["done.dat", "new.dat"] [".dat"]
        (fun _ => true) ["done.dat"]
    ∧ "new.dat" ∈ Monitor.findBackupFiles true ["done.dat", "new.dat"] [".dat"]
        (fun _ => true) ["done.dat"] := by
  refine ⟨?_, ?_, ?_, ?_⟩
  · have h := processed_set_bookkeeping.1 envTwoDatsTool [] "/watch/multi.rar" true
      "multi.rar" (by decide)
    rcases h with h | h
    · exact absurd h (by decide)
    · exact h
  · exact processed_set_bookkeeping.2.1 envEmptyFileTool ["seen.dat"] "/watch/empty.dat" true
      (by decide)
  · exact processed_set_bookkeeping.2.2.1 true ["done.dat", "new.dat"] [".dat"]
      (fun _ => true) ["done.dat"] "done.dat" (by decide)
  · exact processed_set_bookkeeping.2.2.2 ["done.dat", "new.dat"] [".dat"]
      (fun _ => true) ["done.dat"] "new.dat" (by decide) (by decide) (by decide) rfl

/-- C4: an empty manifest read makes the run terminate failed before any
restore command is issued: the tool raises the no-manifest ValueError and its
trace holds no restore execution; the handler returns None, which `on_created`
reports as a failed run, likewise with no restore execution. -/
theorem empty_manifest_fails_without_restore :
    (∀ (env : ToolEnv) (p : String) (t : Option String),
       env.connectOk 1 = true → 0 < env.retryAttempts →
       env.fileInfo p = [] →
       (Tool.restoreBackup env p t).1 = .error (.valueError "No file information found in backup")
       ∧ (Tool.restoreBackup env p t).2.countP Event.isExecRestore = 0)
    ∧ (∀ (env : HandlerEnv) (p : String),
       env.fileExists p = true → env.connectOk = true →
       env.fileInfo (joinPath env.sharedBackupDir (baseName p)) = [] →
       Handler.runOutcome (Handler.processBackupFile env p).1 = .failed
       ∧ (Handler.processBackupFile env p).1 = .ok none
       ∧ (Handler.processBackupFile env p).2.countP Event.isExecRestore = 0) := by
  constructor
  · intro env p t hc hpos hfi
    obtain ⟨f, hf⟩ : ∃ f, env.retryAttempts = f + 1 :=
      ⟨env.retryAttempts - 1, by omega⟩
    have h1 : Tool.restoreBackup env p t
        = (.error (.valueError "No file information found in backup"),
           [.connectAttempt, .queryFileList p]) := by
      rw [Tool.restoreBackup, hf, connectLoop_first_ok env f hc]
      simp [hfi]
    refine ⟨by rw [h1], by rw [h1]; rfl⟩
  · intro env p hex hconn hfi
    have hb : Handler.restoreBackupOnce env p
        = (.ok none,
           [Event.restoreRun p,
            Event.copyToShared p (joinPath env.sharedBackupDir (baseName p)),
            Event.connectAttempt,
            Event.queryFileList (joinPath env.sharedBackupDir (baseName p))]) := by
      simp [Handler.restoreBackupOnce, hex, hconn, hfi]
    have hr1 : Handler.restoreBackup env p
        = (.ok none,
           [Event.restoreRun p,
            Event.copyToShared p (joinPath env.sharedBackupDir (baseName p)),
            Event.connectAttempt,
            Event.queryFileList (joinPath env.sharedBackupDir (baseName p))]) := by
      rw [Handler.restoreBackup]
      exact retryT_three_firstOk 5 (fun _ => Handler.restoreBackupOnce env p) none _ hb
    have honce : Handler.processBackupFileOnce env p
        = (.ok none,
           [Event.restoreRun p,
            Event.copyToShared p (joinPath env.sharedBackupDir (baseName p)),
            Event.connectAttempt,
            Event.queryFileList (joinPath env.sharedBackupDir (baseName p))]) := by
      simp [Handler.processBackupFileOnce, hex, hr1]
    have hfull : Handler.processBackupFile env p
        = (.ok none,
           [Event.restoreRun p,
            Event.copyToShared p (joinPath env.sharedBackupDir (baseName p)),
            Event.connectAttempt,
            Event.queryFileList (joinPath env.sharedBackupDir (baseName p))]) := by
      rw [Handler.processBackupFile]
      exact retryT_three_firstOk 5 (fun _ => Handler.processBackupFileOnce env p) none _ honce
    rw [hfull]
    exact ⟨rfl, rfl, rfl⟩

/-- Witness for C4 at concrete environments whose manifest reads return zero
entries. -/
theorem empty_manifest_fails_without_restore_witness :
    ((Tool.restoreBackup envNoManifestTool "/shared_backup/backup1.dat" none).1
       = .error (.valueError "No file information found in backup")
     ∧ (Tool.restoreBackup envNoManifestTool "/shared_backup/backup1.dat" none).2.countP
         Event.isExecRestore = 0)
    ∧ (Handler.runOutcome (Handler.processBackupFile envNoManifestHandler
         "/watch/backup1.dat").1 = .failed
       ∧ (Handler.processBackupFile envNoManifestHandler "/watch/backup1.dat").1 = .ok none
       ∧ (Handler.processBackupFile envNoManifestHandler "/watch/backup1.dat").2.countP
           Event.isExecRestore = 0) := by
  exact ⟨empty_manifest_fails_without_restore.1 envNoManifestTool
      "/shared_backup/backup1.dat" none rfl (by decide) rfl,
    empty_manifest_fails_without_restore.2 envNoManifestHandler
      "/watch/backup1.dat" rfl rfl rfl⟩

/-- The tool restore stage never emits a dat-processing marker: its trace
holds only connection, sleep, query, restore-execution and polling events. -/
theorem Tool.restoreBackup_no_processDat (env : ToolEnv) (p : String) (t : Option String) :
    ∀ e ∈ (Tool.restoreBackup env p t).2, Event.isProcessDat e = false := by
  intro e he
  cases hc : (Tool.connectLoop env 1 env.retryAttempts).1 with
  | error err =>
    simp only [Tool.restoreBackup, hc] at he
    rcases connectLoop_trace_events env env.retryAttempts 1 e he with h | h <;>
      simp [h, Event.isProcessDat]
  | ok u0 =>
    by_cases hfi : (env.fileInfo p).isEmpty
    · simp only [Tool.restoreBackup, hc, hfi, if_true] at he
      rcases List.mem_append.mp he with h | h
      · rcases connectLoop_trace_events env env.retryAttempts 1 e h with h1 | h1 <;>
          simp [h1, Event.isProcessDat]
      · simp only [List.mem_singleton] at h
        simp [h, Event.isProcessDat]
    · by_cases hre : env.restoreExecOk
      · cases hw : (waitForDbOnline env.pollStates
            (deriveDatabaseName t (env.fileInfo p) env.unixTime) 0 env.pollBudget).1 with
        | error werr =>
          simp only [Tool.restoreBackup, hc, hfi, hre, hw, Bool.false_eq_true, if_false,
            if_true] at he
          rcases List.mem_append.mp he with h | h
          · rcases List.mem_append.mp h with h2 | h2
            · rcases List.mem_append.mp h2 with h3 | h3
              · rcases connectLoop_trace_events env env.retryAttempts 1 e h3 with h4 | h4 <;>
                  simp [h4, Event.isProcessDat]
              · simp only [List.mem_singleton] at h3
                simp [h3, Event.isProcessDat]
            · simp only [List.mem_singleton] at h2
              simp [h2, Event.isProcessDat]
          · rcases List.mem_cons.mp h with h2 | h2
            · simp [h2, Event.isProcessDat]
            · rw [waitForDbOnline_trace_all_pollQuery env.pollStates _ env.pollBudget 0 e h2]
              simp [Event.isProcessDat]
        | ok u1 =>
          simp only [Tool.restoreBackup, hc, hfi, hre, hw, Bool.false_eq_true, if_false,
            if_true] at he
          rcases List.mem_append.mp he with h | h
          · rcases List.mem_append.mp h with h2 | h2
            · rcases List.mem_append.mp h2 with h3 | h3
              · rcases connectLoop_trace_events env env.retryAttempts 1 e h3 with h4 | h4 <;>
                  simp [h4, Event.isProcessDat]
              · simp only [List.mem_singleton] at h3
                simp [h3, Event.isProcessDat]
            · simp only [List.mem_singleton] at h2
              simp [h2, Event.isProcessDat]
          · rcases List.mem_cons.mp h with h2 | h2
            · simp [h2, Event.isProcessDat]
            · rw [waitForDbOnline_trace_all_pollQuery env.pollStates _ env.pollBudget 0 e h2]
              simp [Event.isProcessDat]
      · simp only [Tool.restoreBackup, hc, hfi, hre, Bool.false_eq_true, if_false] at he
        rcases List.mem_append.mp he with h | h
        · rcases List.mem_append.mp h with h2 | h2
          · rcases connectLoop_trace_events env env.retryAttempts 1 e h2 with h3 | h3 <;>
              simp [h3, Event.isProcessDat]
          · simp only [List.mem_singleton] at h2
            simp [h2, Event.isProcessDat]
        · simp only [List.mem_singleton] at h
          simp [h, Event.isProcessDat]

/-- One tool dat-processing run emits exactly one dat-processing marker, on
its own input path. -/
theorem Tool.processDat_marker (env : ToolEnv) (p : String) (t : Option String) :
    (Tool.processDat env p t).2.filter Event.isProcessDat = [.processDat p] := by
  have hnil : ∀ q, (Tool.restoreBackup env q t).2.filter Event.isProcessDat = [] := by
    intro q
    rw [List.filter_eq_nil_iff]
    intro a ha
    simp [Tool.restoreBackup_no_processDat env q t a ha]
  cases hv : Tool.validateBackupFile env p with
  | error err => simp [Tool.processDat, hv, Event.isProcessDat]
  | ok u =>
    cases hr : (Tool.restoreBackup env (joinPath env.sharedBackupDir (baseName p)) t).1 with
    | error e2 =>
      simp only [Tool.processDat, hv, hr]
      simp [Event.isProcessDat, hnil]
    | ok v =>
      simp only [Tool.processDat, hv, hr]
      simp [Event.isProcessDat, hnil]

/-- C1 counterexample: a concrete tool run whose restore pipeline succeeds
(the dat-processing stage returns the restored MyDB result) but whose
archival move fails ends in an error — the archival failure is surfaced as a
run failure rather than swallowed. -/
theorem archival_failure_surfaced_tool :
    (Tool.processBackup envArchFailTool "/watch/backup1.dat" none true).1 = .error .osError
    ∧ (Tool.processDat envArchFailTool "/watch/backup1.dat" none).1
        = .ok ⟨"MyDB", [some "MyDB", some "MyDB_log"], "backup1.dat", none⟩ := by
  exact ⟨by decide, by decide⟩

/-- C1 (amended): in the ingestion-service handler an archival failure after
a successful restore is swallowed and the run still completes with the
restored database name; in the tool's process_backup the archival move is
unguarded, so its failure propagates and the run is reported failed. -/
theorem archival_failure_handling :
    (∀ (env : HandlerEnv) (p db : String) (files : List (Option String)),
       env.fileExists p = true → env.archiveOk p = false →
       (Handler.restoreBackup env p).1 = .ok (some (db, files)) →
       (Handler.processBackupFile env p).1 = .ok (some db)
       ∧ Handler.runOutcome (Handler.processBackupFile env p).1 = .completed db)
    ∧ (∀ (env : ToolEnv) (p : String) (t : Option String) (n : Nat) (res : ToolResult),
       env.fileSize p = some n → pyLower (extOf p) = ".dat" →
       env.archiveOk p = false →
       (Tool.processDat env p t).1 = .ok res →
       (Tool.processBackup env p t true).1 = .error .osError) := by
  constructor
  · intro env p db files hex harch hr
    have honce : Handler.processBackupFileOnce env p
        = (.ok (some db), (Handler.restoreBackup env p).2) := by
      simp [Handler.processBackupFileOnce, hex, hr, harch]
    have hfull : Handler.processBackupFile env p
        = (.ok (some db), (Handler.restoreBackup env p).2) := by
      rw [Handler.processBackupFile]
      exact retryT_three_firstOk 5 (fun _ => Handler.processBackupFileOnce env p)
        (some db) _ honce
    rw [hfull]
    exact ⟨rfl, rfl⟩
  · intro env p t n res hsize hext harch hdat
    simp [Tool.processBackup, hsize, hext, hdat, harch]

/-- Witness for the amended C1 at the concrete archival-failure runs. -/
theorem archival_failure_handling_witness :
    ((Handler.processBackupFile envArchFailHandler "/watch/backup1.dat").1 = .ok (some "MyDB")
     ∧ Handler.runOutcome (Handler.processBackupFile envArchFailHandler "/watch/backup1.dat").1
         = .completed "MyDB")
    ∧ (Tool.processBackup envArchFailTool "/watch/backup1.dat" none true).1 = .error .osError := by
  exact ⟨archival_failure_handling.1 envArchFailHandler "/watch/backup1.dat" "MyDB"
      [some "MyDB", some "MyDB_log"] rfl rfl (by decide),
    archival_failure_handling.2 envArchFailTool "/watch/backup1.dat" none 100
      ⟨"MyDB", [some "MyDB", some "MyDB_log"], "backup1.dat", none⟩ rfl (by decide) rfl
      (by decide)⟩

/-- C2 counterexample: in the ingestion-service handler a polling timeout
escapes into the retry wrapper around restore_backup, which re-invokes the
whole body: with a poll stuck in RESTORING, the polling phase runs three
times — not once — before the timeout error is propagated. -/
theorem polling_retried_counterexample :
    (Handler.restoreBackup envPollStuckHandler "/watch/b.dat").1
      = .error (.timeoutError "Timeout waiting for database MyDB to come online")
    ∧ (Handler.restoreBackup envPollStuckHandler "/watch/b.dat").2.countP Event.isPollPhase = 3
    ∧ ¬ ((Handler.restoreBackup envPollStuckHandler "/watch/b.dat").2.countP
          Event.isPollPhase ≤ 1) := by
  exact ⟨by decide, by decide, by decide⟩

/-- C2 (amended): a polling phase that exceeds its timeout fails the run with
a timeout error in both implementations; in the tool no outer wrapper retries
it — one polling phase per run — while in the ingestion-service handler the
retry wrapper around restore_backup re-invokes polling, three phases in all. -/
theorem polling_timeout_behavior :
    (∀ (env : ToolEnv) (p : String) (t : Option String) (e : FileManifestEntry)
       (es : List FileManifestEntry),
       env.connectOk 1 = true → 0 < env.retryAttempts →
       env.fileInfo p = e :: es → env.restoreExecOk = true →
       (∀ k, env.pollStates k ≠ some "ONLINE") →
       (∃ msg, (Tool.restoreBackup env p t).1 = .error (.timeoutError msg))
       ∧ (Tool.restoreBackup env p t).2.countP Event.isPollPhase = 1)
    ∧ (∀ (env : HandlerEnv) (p : String) (e : FileManifestEntry)
       (es : List FileManifestEntry),
       env.fileExists p = true → env.connectOk = true →
       env.fileInfo (joinPath env.sharedBackupDir (baseName p)) = e :: es →
       env.fullRestoreOk = true →
       (∀ k, env.pollStates k ≠ some "ONLINE") →
       (∃ msg, (Handler.restoreBackup env p).1 = .error (.timeoutError msg))
       ∧ (Handler.restoreBackup env p).2.countP Event.isPollPhase = 3) := by
  constructor
  · intro env p t e es hc hpos hfi hre hps
    obtain ⟨f, hf⟩ : ∃ f, env.retryAttempts = f + 1 :=
      ⟨env.retryAttempts - 1, by omega⟩
    have hw := waitForDbOnline_stuck env.pollStates
      (deriveDatabaseName t (e :: es) env.unixTime) hps env.pollBudget 0
    have h1 : Tool.restoreBackup env p t
        = (.error (.timeoutError ("Timeout waiting for database "
             ++ deriveDatabaseName t (e :: es) env.unixTime ++ " to come online")),
           [Event.connectAttempt, Event.queryFileList p,
            Event.execRestore (Tool.restoreSql
              (deriveDatabaseName t (e :: es) env.unixTime) (e :: es))]
           ++ Event.pollPhase (deriveDatabaseName t (e :: es) env.unixTime)
             :: (waitForDbOnline env.pollStates
                  (deriveDatabaseName t (e :: es) env.unixTime) 0 env.pollBudget).2) := by
      rw [Tool.restoreBackup, hf, connectLoop_first_ok env f hc, hfi]
      simp [hre, hw]
    rw [h1]
    refine ⟨⟨_, rfl⟩, ?_⟩
    simp [List.countP_append, List.countP_cons, Event.isPollPhase,
      waitForDbOnline_countP_pollPhase]
  · intro env p e es hex hconn hfi hfull hps
    have hw := waitForDbOnline_stuck env.pollStates
      (deriveDatabaseName none (e :: es) env.unixTime) hps env.pollBudget 0
    have honce : Handler.restoreBackupOnce env p
        = (.error (.timeoutError ("Timeout waiting for database "
             ++ deriveDatabaseName none (e :: es) env.unixTime ++ " to come online")),
           [Event.restoreRun p,
            Event.copyToShared p (joinPath env.sharedBackupDir (baseName p)),
            Event.connectAttempt,
            Event.queryFileList (joinPath env.sharedBackupDir (baseName p)),
            Event.execRestore (Handler.restoreSql
              (deriveDatabaseName none (e :: es) env.unixTime) (e :: es))]
           ++ Event.pollPhase (deriveDatabaseName none (e :: es) env.unixTime)
             :: (waitForDbOnline env.pollStates
                  (deriveDatabaseName none (e :: es) env.unixTime) 0 env.pollBudget).2) := by
      rw [Handler.restoreBackupOnce]
      simp [hex, hconn, hfi, hfull, hw]
    have hall := retryT_three_allFail 5 (fun _ => Handler.restoreBackupOnce env p)
      (fun _ => .timeoutError ("Timeout waiting for database "
        ++ deriveDatabaseName none (e :: es) env.unixTime ++ " to come online"))
      (fun _ =>
        [Event.restoreRun p,
         Event.copyToShared p (joinPath env.sharedBackupDir (baseName p)),
         Event.connectAttempt,
         Event.queryFileList (joinPath env.sharedBackupDir (baseName p)),
         Event.execRestore (Handler.restoreSql
           (deriveDatabaseName none (e :: es) env.unixTime) (e :: es))]
        ++ Event.pollPhase (deriveDatabaseName none (e :: es) env.unixTime)
          :: (waitForDbOnline env.pollStates
               (deriveDatabaseName none (e :: es) env.unixTime) 0 env.pollBudget).2)
      (fun _ => honce)
    rw [Handler.restoreBackup, hall]
    refine ⟨⟨_, rfl⟩, ?_⟩
    simp [List.countP_append, List.countP_cons, Event.isPollPhase,
      waitForDbOnline_countP_pollPhase]

/-- Witness for the amended C2 at the concrete stuck-poll runs. -/
theorem polling_timeout_behavior_witness :
    ((∃ msg, (Tool.restoreBackup envPollStuckTool "/shared_backup/b.dat" none).1
        = .error (.timeoutError msg))
     ∧ (Tool.restoreBackup envPollStuckTool "/shared_backup/b.dat" none).2.countP
         Event.isPollPhase = 1)
    ∧ ((∃ msg, (Handler.restoreBackup envPollStuckHandler "/watch/b.dat").1
        = .error (.timeoutError msg))
     ∧ (Handler.restoreBackup envPollStuckHandler "/watch/b.dat").2.countP
         Event.isPollPhase = 3) := by
  exact ⟨polling_timeout_behavior.1 envPollStuckTool "/shared_backup/b.dat" none
      myDbEntry [] rfl (by decide) rfl rfl
      (fun _ h => absurd (Option.some.inj h) (by decide)),
    polling_timeout_behavior.2 envPollStuckHandler "/watch/b.dat" myDbEntry []
      rfl rfl rfl rfl (fun _ h => absurd (Option.some.inj h) (by decide))⟩

/-- C3 counterexample: a concrete handler run on an archive with candidates
a.dat and b.dat, where a.dat has an empty manifest, performs a restore run on
both candidates — the second candidate is processed, and the run completes
from it. -/
theorem second_candidate_processed :
    (Handler.processRarFile envTwoDatsHandler "/watch/multi.rar").1 = .ok (some "MyDB")
    ∧ (Handler.processRarFile envTwoDatsHandler "/watch/multi.rar").2.filter
        Event.isRestoreRun
      = [.restoreRun "/tmp/extract/a.dat", .restoreRun "/tmp/extract/b.dat"] := by
  exact ⟨by decide, by decide⟩

/-- C3 (amended): the tool performs exactly one dat-processing run per
archive, on the first candidate in traversal order, whatever its outcome; the
handler stops at the first candidate whose restore returns a database name,
but a candidate failing without an exception (an empty manifest) makes it
move on and process the next candidate. -/
theorem archive_first_candidate_policy :
    (∀ (env : ToolEnv) (rarPath : String) (t : Option String) (first : String)
       (rest : List String),
       env.extractOk = true →
       Tool.collectDatFiles env.walk = first :: rest →
       (Tool.processRar env rarPath t).2.filter Event.isProcessDat = [.processDat first]
       ∧ (Tool.processRar env rarPath t).1 = (Tool.processDat env first t).1)
    ∧ (∀ (env : HandlerEnv) (p : String) (rest : List String) (db : String),
       (Handler.processBackupFile env p).1 = .ok (some db) →
       Handler.tryDats env (p :: rest)
         = (.ok (some db), (Handler.processBackupFile env p).2))
    ∧ (∀ (env : HandlerEnv) (p : String) (rest : List String),
       (Handler.processBackupFile env p).1 = .ok none →
       Handler.tryDats env (p :: rest)
         = ((Handler.tryDats env rest).1,
            (Handler.processBackupFile env p).2 ++ (Handler.tryDats env rest).2)) := by
  refine ⟨?_, ?_, ?_⟩
  · intro env rarPath t first rest hex hcol
    have h1 : Tool.processRar env rarPath t
        = ((Tool.processDat env first t).1,
           Event.extractArchive rarPath :: (Tool.processDat env first t).2) := by
      rw [Tool.processRar]
      simp [hex, hcol]
    rw [h1]
    refine ⟨?_, rfl⟩
    simp [Event.isProcessDat, Tool.processDat_marker]
  · intro env p rest db h
    rw [Handler.tryDats]
    simp [h]
  · intro env p rest h
    rw [Handler.tryDats]
    simp [h]

/-- Witness for the amended C3 at the concrete two-candidate runs. -/
theorem archive_first_candidate_policy_witness :
    ((Tool.processRar envTwoDatsTool "/watch/multi.rar" none).2.filter Event.isProcessDat
       = [.processDat "/tmp/extract/a.dat"]
     ∧ (Tool.processRar envTwoDatsTool "/watch/multi.rar" none).1
       = (Tool.processDat envTwoDatsTool "/tmp/extract/a.dat" none).1)
    ∧ Handler.tryDats envTwoDatsHandler ["/tmp/extract/b.dat"]
        = (.ok (some "MyDB"),
           (Handler.processBackupFile envTwoDatsHandler "/tmp/extract/b.dat").2)
    ∧ Handler.tryDats envTwoDatsHandler ["/tmp/extract/a.dat", "/tmp/extract/b.dat"]
        = ((Handler.tryDats envTwoDatsHandler ["/tmp/extract/b.dat"]).1,
           (Handler.processBackupFile envTwoDatsHandler "/tmp/extract/a.dat").2
             ++ (Handler.tryDats envTwoDatsHandler ["/tmp/extract/b.dat"]).2) := by
  exact ⟨archive_first_candidate_policy.1 envTwoDatsTool "/watch/multi.rar" none
      "/tmp/extract/a.dat" ["/tmp/extract/b.dat"] rfl (by decide),
    archive_first_candidate_policy.2.1 envTwoDatsHandler "/tmp/extract/b.dat" [] "MyDB"
      (by decide),
    archive_first_candidate_policy.2.2 envTwoDatsHandler "/tmp/extract/a.dat"
      ["/tmp/extract/b.dat"] (by decide)⟩

end MssqlRestore
